import Mathlib

/-!
Verification of the signal aggregation and trade-gating engine of the
eurusdt-predict-gemini repository.

The TypeScript sources are embedded shallowly into Lean over `ℚ`
(JavaScript numbers are modelled as rationals; division by zero is noted
wherever JS semantics would produce `Infinity`/`NaN` and the embedding is
adjusted to follow the JS value on the inputs the program uses).

Embedded modules:
* `MA`  — the master-analysis aggregator (`src/unnamed/part_010`; the copy in
  `src/unnamed/part_009` has identical `calculateMasterSignal`,
  `calculateMasterConfidence` and `calculateSignalConsensus` bodies, and a
  `calculateAccuracyScore` / `determineShouldTrade` variant embedded
  separately as `MA9`).
* `TI`  — `src/utils/technicalIndicators.ts`.
* `CTA` — `src/utils/cryptoTechnicalAnalysis.ts`.
* `RT`  — `src/utils/realTimeAIAnalysis.ts`.
* `SRM` — `src/utils/smartRiskManagement.ts`.
* `CA`  — `src/utils/comprehensiveAnalysis.ts`.
-/

namespace MA

/-- The signal labels that occur in the aggregator's inputs: the five-step
scale plus the sentiment domain `BULLISH`/`BEARISH`.  In the source these are
plain strings; every string actually passed to `calculateMasterSignal` is one
of these seven. -/
inductive Signal where
  | STRONG_BUY
  | BUY
  | NEUTRAL
  | SELL
  | STRONG_SELL
  | BULLISH
  | BEARISH
deriving DecidableEq, Repr

/-- One entry of the `signals` array handed to the master aggregator:
`{ signal, weight, confidence }` (the `source` string field is irrelevant to
the computations and omitted). -/
structure SignalSource where
  signal : Signal
  weight : ℚ
  confidence : ℚ
deriving DecidableEq, Repr

/-- The `switch (signal)` table inside `calculateMasterSignal`
(part_010 lines 311–320): STRONG_BUY→100, BUY→75, NEUTRAL→50, SELL→25,
STRONG_SELL→0, BULLISH→75, BEARISH→25. -/
def signalScore : Signal → ℚ
  | .STRONG_BUY => 100
  | .BUY => 75
  | .NEUTRAL => 50
  | .SELL => 25
  | .STRONG_SELL => 0
  | .BULLISH => 75
  | .BEARISH => 25

/-- `const adjustedWeight = weight * (confidence / 100)`. -/
def adjustedWeight (s : SignalSource) : ℚ :=
  s.weight * (s.confidence / 100)

/-- The `weightedScore` accumulator of the `forEach` loop:
`Σ signalScore_i * adjustedWeight_i`. -/
def weightedScore (signals : List SignalSource) : ℚ :=
  (signals.map (fun s => signalScore s.signal * adjustedWeight s)).sum

/-- The `totalWeight` accumulator of the `forEach` loop:
`Σ adjustedWeight_i`. -/
def totalWeight (signals : List SignalSource) : ℚ :=
  (signals.map adjustedWeight).sum

/-- `const finalScore = totalWeight > 0 ? weightedScore / totalWeight : 50`. -/
def finalScore (signals : List SignalSource) : ℚ :=
  if totalWeight signals > 0 then weightedScore signals / totalWeight signals
  else 50

/-- The threshold ladder at the end of `calculateMasterSignal`:
`>=85 STRONG_BUY; >=65 BUY; <=15 STRONG_SELL; <=35 SELL; else NEUTRAL`. -/
def scoreToSignal (score : ℚ) : Signal :=
  if score ≥ 85 then .STRONG_BUY
  else if score ≥ 65 then .BUY
  else if score ≤ 15 then .STRONG_SELL
  else if score ≤ 35 then .SELL
  else .NEUTRAL

/-- `calculateMasterSignal` (part_010 lines 306–334 and, identically,
part_009 lines 149–177). -/
def calculateMasterSignal (signals : List SignalSource) : Signal :=
  scoreToSignal (finalScore signals)

/-- `s.includes('BUY') || s === 'BULLISH'` on the seven label strings. -/
def isBullishLabel : Signal → Bool
  | .STRONG_BUY | .BUY | .BULLISH => true
  | _ => false

/-- `s.includes('SELL') || s === 'BEARISH'` on the seven label strings. -/
def isBearishLabel : Signal → Bool
  | .SELL | .STRONG_SELL | .BEARISH => true
  | _ => false

/-- `calculateSignalConsensus`: the largest of the bullish / bearish /
neutral counts divided by the number of sources. -/
def calculateSignalConsensus (signals : List SignalSource) : ℚ :=
  let bullishSignals : ℚ := signals.countP (fun s => isBullishLabel s.signal)
  let bearishSignals : ℚ := signals.countP (fun s => isBearishLabel s.signal)
  let neutralSignals : ℚ := signals.countP (fun s => s.signal = .NEUTRAL)
  max (max bullishSignals bearishSignals) neutralSignals / signals.length

/-- `calculateMasterConfidence`: average confidence plus ten times the
consensus, capped at 95. -/
def calculateMasterConfidence (signals : List SignalSource) : ℚ :=
  let avgConfidence := (signals.map (·.confidence)).sum / signals.length
  min 95 (avgConfidence + calculateSignalConsensus signals * 10)

end MA

namespace MASpec

/-- The label-to-score table exactly as claim C1 words it, with the single
amendment the code forces: `BULLISH` maps to 75 (the claim said 100). -/
def specScore : MA.Signal → ℚ
  | .STRONG_BUY => 100
  | .BULLISH => 75
  | .BUY => 75
  | .NEUTRAL => 50
  | .SELL => 25
  | .BEARISH => 25
  | .STRONG_SELL => 0

/-- The confidence-weighted average of the spec: each source weighs in with
`declared_weight * (confidence/100)`; a zero denominator yields 50. -/
def specFinalScore (signals : List MA.SignalSource) : ℚ :=
  let den := (signals.map (fun s => s.weight * (s.confidence / 100))).sum
  if den > 0 then
    (signals.map (fun s => specScore s.signal * (s.weight * (s.confidence / 100)))).sum / den
  else 50

/-- The spec's threshold mapping: score ≥ 85 STRONG_BUY, ≥ 65 BUY,
≤ 15 STRONG_SELL, ≤ 35 SELL, otherwise NEUTRAL. -/
def specLabel (score : ℚ) : MA.Signal :=
  if score ≥ 85 then .STRONG_BUY
  else if score ≥ 65 then .BUY
  else if score ≤ 15 then .STRONG_SELL
  else if score ≤ 35 then .SELL
  else .NEUTRAL

end MASpec

/-- C1 counterexample: the claim maps `BULLISH` to 100, but the source's
`switch` maps `BULLISH` to 75; consequently a single fully-confident
`BULLISH` source aggregates to `BUY`, not to the `STRONG_BUY` the claim's
scale would give. -/
theorem C1_bullish_counterexample :
    MA.signalScore .BULLISH = 75 ∧ MA.signalScore .BULLISH ≠ 100 ∧
    MA.calculateMasterSignal
      [{ signal := .BULLISH, weight := 1, confidence := 100 }] = .BUY := by
  refine ⟨rfl, by decide, ?_⟩
  unfold MA.calculateMasterSignal MA.finalScore MA.totalWeight MA.weightedScore
    MA.adjustedWeight MA.scoreToSignal MA.signalScore
  norm_num

/-- C1 (amended): the aggregator maps labels through the fixed scale
STRONG_BUY=100, BULLISH=75, BUY=75, NEUTRAL=50, SELL=25, BEARISH=25,
STRONG_SELL=0, forms the confidence-weighted average, and maps it back with
the thresholds ≥85 STRONG_BUY, ≥65 BUY, ≤15 STRONG_SELL, ≤35 SELL,
else NEUTRAL. -/
theorem C1_amended_score_scale_and_thresholds (signals : List MA.SignalSource) :
    (∀ l : MA.Signal, MA.signalScore l = MASpec.specScore l) ∧
    MA.calculateMasterSignal signals = MASpec.specLabel (MASpec.specFinalScore signals) := by
  constructor
  · intro l; cases l <;> rfl
  · have hscore : MASpec.specFinalScore signals = MA.finalScore signals := by
      unfold MASpec.specFinalScore MA.finalScore MA.totalWeight MA.weightedScore
        MA.adjustedWeight
      have : (signals.map (fun s => MASpec.specScore s.signal *
          (s.weight * (s.confidence / 100)))).sum =
          (signals.map (fun s => MA.signalScore s.signal *
          (s.weight * (s.confidence / 100)))).sum := by
        congr 1
        apply List.map_congr_left
        intro s _
        congr 1
        cases s.signal <;> rfl
      simp only [this]
    rw [hscore]
    rfl

/-- C2: when every source's effective weight `weight * (confidence/100)`
is zero, the denominator is zero, the final score is 50 by definition and
the overall label is NEUTRAL — no division by zero occurs. -/
theorem C2_zero_total_weight_neutral (signals : List MA.SignalSource)
    (h : ∀ s ∈ signals, s.weight * (s.confidence / 100) = 0) :
    MA.finalScore signals = 50 ∧ MA.calculateMasterSignal signals = .NEUTRAL := by
  have htw : MA.totalWeight signals = 0 := by
    unfold MA.totalWeight
    apply List.sum_eq_zero
    intro x hx
    rcases List.mem_map.mp hx with ⟨s, hs, rfl⟩
    exact h s hs
  have hfs : MA.finalScore signals = 50 := by
    unfold MA.finalScore
    rw [htw]
    norm_num
  refine ⟨hfs, ?_⟩
  unfold MA.calculateMasterSignal
  rw [hfs]
  unfold MA.scoreToSignal
  norm_num

/-- C2 witness: a concrete two-source list (one zero-weight, one
zero-confidence source) evaluates to final score 50 and label NEUTRAL. -/
theorem C2_zero_total_weight_neutral_witness :
    MA.finalScore [{ signal := .STRONG_BUY, weight := 0, confidence := 90 },
                   { signal := .SELL, weight := 1, confidence := 0 }] = 50 ∧
    MA.calculateMasterSignal
      [{ signal := .STRONG_BUY, weight := 0, confidence := 90 },
       { signal := .SELL, weight := 1, confidence := 0 }] = .NEUTRAL := by
  exact C2_zero_total_weight_neutral _ (by intro s hs; fin_cases hs <;> norm_num)

namespace MA

/-- `signal.includes('STRONG')` on the seven label strings. -/
def isStrongLabel : Signal → Bool
  | .STRONG_BUY | .STRONG_SELL => true
  | _ => false

/-- `calculateAccuracyScore` of part_010 (lines 356–375): base 60, boosted
by data quantity and consensus, adjusted by calendar impact, clamped by
`Math.max(45, Math.min(95, ·))`. -/
def calculateAccuracyScore (signals : List SignalSource) (impactScore : ℚ)
    (dataPoints : ℕ) : ℚ :=
  let a1 : ℚ := 60
  let a2 := if dataPoints ≥ 100 then a1 + 20 else if dataPoints ≥ 50 then a1 + 10 else a1
  let a3 := a2 + calculateSignalConsensus signals * 15
  let a4 := if impactScore > 15 then a3 - 10 else if impactScore < 5 then a3 + 5 else a3
  max 45 (min 95 a4)

end MA

namespace MA9

/-- `calculateAccuracyScore` of part_009 (lines 200–215): base 70, boosted by
consensus, adjusted by calendar impact, clamped to [45, 95]. -/
def calculateAccuracyScore (signals : List MA.SignalSource) (impactScore : ℚ) : ℚ :=
  let a1 : ℚ := 70
  let a2 := a1 + MA.calculateSignalConsensus signals * 15
  let a3 := if impactScore > 15 then a2 - 10 else if impactScore < 5 then a2 + 5 else a2
  max 45 (min 95 a3)

end MA9

namespace CA

/-- `calculateAccuracyScore` of comprehensiveAnalysis.ts (lines 156–171):
base 65, boosted by signal strength, confidence and indicator count, clamped
by `Math.min(95, Math.max(45, ·))`. -/
def calculateAccuracyScore (signal : MA.Signal) (confidence : ℚ)
    (indicatorCount : ℕ) : ℚ :=
  let a1 : ℚ := 65
  let a2 := if MA.isStrongLabel signal then a1 + 15
    else if signal ≠ .NEUTRAL then a1 + 8 else a1
  let a3 := if confidence > 80 then a2 + 10 else if confidence > 60 then a2 + 5 else a2
  let a4 := if indicatorCount ≥ 4 then a3 + 5 else a3
  min 95 (max 45 a4)

end CA

namespace MASpec

/-- The consensus figure exactly as claim C7 words it: the largest of the
bullish, bearish and neutral source counts divided by the total number of
sources. -/
def specConsensus (signals : List MA.SignalSource) : ℚ :=
  let bullish : ℚ := (signals.filter (fun s => MA.isBullishLabel s.signal)).length
  let bearish : ℚ := (signals.filter (fun s => MA.isBearishLabel s.signal)).length
  let neutral : ℚ := (signals.filter (fun s => s.signal = MA.Signal.NEUTRAL)).length
  max (max bullish bearish) neutral / signals.length

/-- `dominantLabel l` is the overall label a single fully-dominant source
with label `l` produces: its own label on the five-step scale, with the
sentiment labels collapsing to `BUY` / `SELL`. -/
def dominantLabel : MA.Signal → MA.Signal
  | .BULLISH => .BUY
  | .BEARISH => .SELL
  | l => l

end MASpec

lemma MA.weightedScore_append (l1 l2 : List MA.SignalSource) :
    MA.weightedScore (l1 ++ l2) = MA.weightedScore l1 + MA.weightedScore l2 := by
  unfold MA.weightedScore
  rw [List.map_append, List.sum_append]

lemma MA.totalWeight_append (l1 l2 : List MA.SignalSource) :
    MA.totalWeight (l1 ++ l2) = MA.totalWeight l1 + MA.totalWeight l2 := by
  unfold MA.totalWeight
  rw [List.map_append, List.sum_append]

lemma MA.weightedScore_cons (s : MA.SignalSource) (l : List MA.SignalSource) :
    MA.weightedScore (s :: l) =
      MA.signalScore s.signal * MA.adjustedWeight s + MA.weightedScore l := by
  unfold MA.weightedScore
  rw [List.map_cons, List.sum_cons]

lemma MA.totalWeight_cons (s : MA.SignalSource) (l : List MA.SignalSource) :
    MA.totalWeight (s :: l) = MA.adjustedWeight s + MA.totalWeight l := by
  unfold MA.totalWeight
  rw [List.map_cons, List.sum_cons]

/-- If every source of a list has zero effective weight, both accumulated
sums vanish. -/
lemma MA.sums_eq_zero_of_adjustedWeight_eq_zero (l : List MA.SignalSource)
    (h : ∀ s ∈ l, MA.adjustedWeight s = 0) :
    MA.weightedScore l = 0 ∧ MA.totalWeight l = 0 := by
  constructor
  · unfold MA.weightedScore
    apply List.sum_eq_zero
    intro x hx
    rcases List.mem_map.mp hx with ⟨s, hs, rfl⟩
    rw [h s hs, mul_zero]
  · unfold MA.totalWeight
    apply List.sum_eq_zero
    intro x hx
    rcases List.mem_map.mp hx with ⟨s, hs, rfl⟩
    exact h s hs

/-- C7: for a nonempty source list the overall confidence is exactly the
average of the sources' confidences plus ten times the consensus (the largest
directional bucket count over the total count), capped at 95. -/
theorem C7_confidence_formula (signals : List MA.SignalSource)
    (h : signals ≠ []) :
    MA.calculateMasterConfidence signals =
      min 95 ((signals.map (·.confidence)).sum / signals.length +
        MASpec.specConsensus signals * 10) ∧
    MA.calculateMasterConfidence signals ≤ 95 := by
  have hcons : MA.calculateSignalConsensus signals = MASpec.specConsensus signals := by
    unfold MA.calculateSignalConsensus MASpec.specConsensus
    simp only [List.countP_eq_length_filter]
  constructor
  · unfold MA.calculateMasterConfidence
    rw [hcons]
  · unfold MA.calculateMasterConfidence
    exact min_le_left _ _

/-- C7 witness: instantiated at two fully-weighted BUY sources. -/
theorem C7_confidence_formula_witness :
    MA.calculateMasterConfidence
      [{ signal := .BUY, weight := 1, confidence := 80 },
       { signal := .BUY, weight := 1, confidence := 60 }] =
      min 95 ((([{ signal := .BUY, weight := 1, confidence := 80 },
        { signal := .BUY, weight := 1, confidence := 60 }] :
          List MA.SignalSource).map (·.confidence)).sum /
        ([{ signal := .BUY, weight := 1, confidence := 80 },
          { signal := .BUY, weight := 1, confidence := 60 }] :
            List MA.SignalSource).length +
        MASpec.specConsensus
          [{ signal := .BUY, weight := 1, confidence := 80 },
           { signal := .BUY, weight := 1, confidence := 60 }] * 10) ∧
    MA.calculateMasterConfidence
      [{ signal := .BUY, weight := 1, confidence := 80 },
       { signal := .BUY, weight := 1, confidence := 60 }] ≤ 95 :=
  C7_confidence_formula _ (by simp)

lemma MA.adjustedWeight_eq_zero {s : MA.SignalSource}
    (h : s.weight = 0 ∨ s.confidence = 0) : MA.adjustedWeight s = 0 := by
  unfold MA.adjustedWeight
  rcases h with h | h
  · rw [h, zero_mul]
  · rw [h]; norm_num

/-- C8 counterexample: a single dominant source with the sentiment label
`BULLISH` (weight 1, confidence 90) aggregates to `BUY`, which is not the
source's own label; likewise a dominant source whose own confidence is 0 has
zero effective weight and aggregates to `NEUTRAL` rather than its label. -/
theorem C8_dominant_label_counterexample :
    MA.calculateMasterSignal
      [{ signal := .BULLISH, weight := 1, confidence := 90 }] = .BUY ∧
    (MA.Signal.BUY ≠ .BULLISH) ∧
    MA.calculateMasterSignal
      [{ signal := .BUY, weight := 1, confidence := 0 }] = .NEUTRAL := by
  refine ⟨?_, by decide, ?_⟩
  · unfold MA.calculateMasterSignal MA.finalScore MA.totalWeight MA.weightedScore
      MA.adjustedWeight MA.scoreToSignal MA.signalScore
    norm_num
  · unfold MA.calculateMasterSignal MA.finalScore MA.totalWeight MA.weightedScore
      MA.adjustedWeight MA.scoreToSignal MA.signalScore
    norm_num

/-- C8 (amended): a source with weight 0 or confidence 0 leaves the final
score and the overall label unchanged (and the computation is total, so it
cannot crash); and a dominant source of weight 1 and positive confidence,
with every other source of zero effective weight, reproduces its own label
exactly when that label is on the five-step scale, while the sentiment labels
`BULLISH`/`BEARISH` come back as `BUY`/`SELL`. -/
theorem C8_amended_zero_contribution_and_dominance :
    (∀ (front back : List MA.SignalSource) (s : MA.SignalSource),
      s.weight = 0 ∨ s.confidence = 0 →
      MA.finalScore (front ++ s :: back) = MA.finalScore (front ++ back) ∧
      MA.calculateMasterSignal (front ++ s :: back) =
        MA.calculateMasterSignal (front ++ back)) ∧
    (∀ (front back : List MA.SignalSource) (sig : MA.Signal) (c : ℚ),
      0 < c →
      (∀ s ∈ front ++ back, MA.adjustedWeight s = 0) →
      MA.calculateMasterSignal
        (front ++ { signal := sig, weight := 1, confidence := c } :: back) =
        MASpec.dominantLabel sig) := by
  constructor
  · intro front back s h
    have hz : MA.adjustedWeight s = 0 := MA.adjustedWeight_eq_zero h
    have hws : MA.weightedScore (front ++ s :: back) =
        MA.weightedScore (front ++ back) := by
      rw [MA.weightedScore_append, MA.weightedScore_cons, MA.weightedScore_append,
        hz, mul_zero, zero_add]
    have htw : MA.totalWeight (front ++ s :: back) =
        MA.totalWeight (front ++ back) := by
      rw [MA.totalWeight_append, MA.totalWeight_cons, MA.totalWeight_append,
        hz, zero_add]
    have hfs : MA.finalScore (front ++ s :: back) =
        MA.finalScore (front ++ back) := by
      unfold MA.finalScore
      rw [hws, htw]
    exact ⟨hfs, by unfold MA.calculateMasterSignal; rw [hfs]⟩
  · intro front back sig c hc hall
    have hfz := MA.sums_eq_zero_of_adjustedWeight_eq_zero front
      (fun s hs => hall s (List.mem_append_left _ hs))
    have hbz := MA.sums_eq_zero_of_adjustedWeight_eq_zero back
      (fun s hs => hall s (List.mem_append_right _ hs))
    set x : MA.SignalSource := { signal := sig, weight := 1, confidence := c }
    have hx : MA.adjustedWeight x = c / 100 := by
      unfold MA.adjustedWeight
      simp [x]
    have hws : MA.weightedScore (front ++ x :: back) =
        MA.signalScore sig * (c / 100) := by
      rw [MA.weightedScore_append, MA.weightedScore_cons, hfz.1, hbz.1, hx]
      simp [x]
    have htw : MA.totalWeight (front ++ x :: back) = c / 100 := by
      rw [MA.totalWeight_append, MA.totalWeight_cons, hfz.2, hbz.2, hx]
      ring
    have htpos : (0 : ℚ) < c / 100 := by positivity
    have hfs : MA.finalScore (front ++ x :: back) = MA.signalScore sig := by
      unfold MA.finalScore
      rw [hws, htw, if_pos htpos]
      field_simp
    unfold MA.calculateMasterSignal
    rw [hfs]
    cases sig <;>
      (unfold MA.scoreToSignal MA.signalScore MASpec.dominantLabel; norm_num)

/-- C8 witness: a zero-weight source leaves the label of a fully-weighted BUY
source unchanged, and a dominant STRONG_SELL source next to a zero-weight
source reproduces STRONG_SELL. -/
theorem C8_amended_witness :
    MA.calculateMasterSignal
      [{ signal := .STRONG_BUY, weight := 0, confidence := 90 },
       { signal := .BUY, weight := 1, confidence := 80 }] =
      MA.calculateMasterSignal [{ signal := .BUY, weight := 1, confidence := 80 }] ∧
    MA.calculateMasterSignal
      [{ signal := .SELL, weight := 0, confidence := 50 },
       { signal := .STRONG_SELL, weight := 1, confidence := 70 }] =
      MASpec.dominantLabel .STRONG_SELL :=
  ⟨(C8_amended_zero_contribution_and_dominance.1 []
      [{ signal := .BUY, weight := 1, confidence := 80 }]
      { signal := .STRONG_BUY, weight := 0, confidence := 90 } (Or.inl rfl)).2,
   C8_amended_zero_contribution_and_dominance.2
      [{ signal := .SELL, weight := 0, confidence := 50 }] [] .STRONG_SELL 70
      (by norm_num)
      (by intro s hs; fin_cases hs; simp [MA.adjustedWeight])⟩

lemma clamp_max_min_bounds (x : ℚ) :
    45 ≤ max 45 (min 95 x) ∧ max 45 (min 95 x) ≤ 95 :=
  ⟨le_max_left _ _, max_le (by norm_num) (min_le_left _ _)⟩

lemma clamp_min_max_bounds (x : ℚ) :
    45 ≤ min 95 (max 45 x) ∧ min 95 (max 45 x) ≤ 95 :=
  ⟨le_min (by norm_num) (le_max_left _ _), min_le_left _ _⟩

/-- C9: every one of the three accuracy estimators (part_010, part_009 and
comprehensiveAnalysis.ts) ends in a clamp to the closed interval [45, 95],
so the accuracy estimate always lies in that interval; it is computed by a
formula of its own, independent of `calculateMasterConfidence`. -/
theorem C9_accuracy_bounds :
    (∀ (signals : List MA.SignalSource) (impactScore : ℚ) (dataPoints : ℕ),
      signals ≠ [] →
      45 ≤ MA.calculateAccuracyScore signals impactScore dataPoints ∧
      MA.calculateAccuracyScore signals impactScore dataPoints ≤ 95) ∧
    (∀ (signals : List MA.SignalSource) (impactScore : ℚ),
      signals ≠ [] →
      45 ≤ MA9.calculateAccuracyScore signals impactScore ∧
      MA9.calculateAccuracyScore signals impactScore ≤ 95) ∧
    (∀ (signal : MA.Signal) (confidence : ℚ) (indicatorCount : ℕ),
      45 ≤ CA.calculateAccuracyScore signal confidence indicatorCount ∧
      CA.calculateAccuracyScore signal confidence indicatorCount ≤ 95) :=
  ⟨fun _ _ _ _ => clamp_max_min_bounds _,
   fun _ _ _ => clamp_max_min_bounds _,
   fun _ _ _ => clamp_min_max_bounds _⟩

/-- C9 witness: the bounds instantiated at a concrete one-source list. -/
theorem C9_accuracy_bounds_witness :
    (45 ≤ MA.calculateAccuracyScore
        [{ signal := .BUY, weight := 1, confidence := 80 }] 0 100 ∧
      MA.calculateAccuracyScore
        [{ signal := .BUY, weight := 1, confidence := 80 }] 0 100 ≤ 95) ∧
    (45 ≤ MA9.calculateAccuracyScore
        [{ signal := .BUY, weight := 1, confidence := 80 }] 0 ∧
      MA9.calculateAccuracyScore
        [{ signal := .BUY, weight := 1, confidence := 80 }] 0 ≤ 95) :=
  ⟨C9_accuracy_bounds.1 [{ signal := .BUY, weight := 1, confidence := 80 }] 0 100
      (by simp),
   C9_accuracy_bounds.2.1 [{ signal := .BUY, weight := 1, confidence := 80 }] 0
      (by simp)⟩

lemma MA.signalScore_nonneg (l : MA.Signal) : 0 ≤ MA.signalScore l := by
  cases l <;> norm_num [MA.signalScore]

lemma MA.signalScore_le_100 (l : MA.Signal) : MA.signalScore l ≤ 100 := by
  cases l <;> norm_num [MA.signalScore]

lemma MA.adjustedWeight_nonneg {s : MA.SignalSource}
    (hw : 0 ≤ s.weight) (hc : 0 ≤ s.confidence) : 0 ≤ MA.adjustedWeight s := by
  unfold MA.adjustedWeight
  exact mul_nonneg hw (div_nonneg hc (by norm_num))

lemma MA.totalWeight_nonneg (l : List MA.SignalSource)
    (h : ∀ s ∈ l, 0 ≤ s.weight ∧ 0 ≤ s.confidence) : 0 ≤ MA.totalWeight l := by
  unfold MA.totalWeight
  apply List.sum_nonneg
  intro x hx
  rcases List.mem_map.mp hx with ⟨s, hs, rfl⟩
  exact MA.adjustedWeight_nonneg (h s hs).1 (h s hs).2

lemma MA.weightedScore_nonneg (l : List MA.SignalSource)
    (h : ∀ s ∈ l, 0 ≤ s.weight ∧ 0 ≤ s.confidence) : 0 ≤ MA.weightedScore l := by
  unfold MA.weightedScore
  apply List.sum_nonneg
  intro x hx
  rcases List.mem_map.mp hx with ⟨s, hs, rfl⟩
  exact mul_nonneg (MA.signalScore_nonneg _)
    (MA.adjustedWeight_nonneg (h s hs).1 (h s hs).2)

lemma MA.weightedScore_le_100_totalWeight (l : List MA.SignalSource)
    (h : ∀ s ∈ l, 0 ≤ s.weight ∧ 0 ≤ s.confidence) :
    MA.weightedScore l ≤ 100 * MA.totalWeight l := by
  unfold MA.weightedScore MA.totalWeight
  rw [← List.sum_map_mul_left l MA.adjustedWeight 100]
  apply List.sum_le_sum
  intro s hs
  exact mul_le_mul_of_nonneg_right (MA.signalScore_le_100 _)
    (MA.adjustedWeight_nonneg (h s hs).1 (h s hs).2)

/-- The two-sided monotone behaviour of the guarded weighted mean
`t ↦ (A + s·t)/(B + t)` (with value 50 when the denominator is not
positive) as the varied effective weight grows from `t1` to `t2`. -/
lemma mix_monotone (A B s t1 t2 : ℚ) (hA : 0 ≤ A) (hB : 0 ≤ B)
    (hAB : B = 0 → A = 0) (ht1 : 0 ≤ t1) (ht12 : t1 ≤ t2) :
    ((if B + t1 > 0 then (A + s * t1) / (B + t1) else 50) ≤ s →
      (if B + t1 > 0 then (A + s * t1) / (B + t1) else 50) ≤
        (if B + t2 > 0 then (A + s * t2) / (B + t2) else 50)) ∧
    (s ≤ (if B + t1 > 0 then (A + s * t1) / (B + t1) else 50) →
      (if B + t2 > 0 then (A + s * t2) / (B + t2) else 50) ≤
        (if B + t1 > 0 then (A + s * t1) / (B + t1) else 50)) := by
  by_cases h1 : B + t1 > 0
  · have h2 : B + t2 > 0 := by linarith
    rw [if_pos h1, if_pos h2]
    constructor
    · intro hle
      have hstep : A + s * t1 ≤ s * (B + t1) := (div_le_iff h1).mp hle
      have hA' : A ≤ s * B := by nlinarith
      rw [div_le_div_iff h1 h2]
      nlinarith [mul_nonneg (sub_nonneg.mpr hA') (sub_nonneg.mpr ht12)]
    · intro hge
      have hstep : s * (B + t1) ≤ A + s * t1 := (le_div_iff h1).mp hge
      have hA' : s * B ≤ A := by nlinarith
      rw [div_le_div_iff h2 h1]
      nlinarith [mul_nonneg (sub_nonneg.mpr hA') (sub_nonneg.mpr ht12)]
  · have hB0 : B = 0 := by linarith
    have ht10 : t1 = 0 := by linarith
    have hA0 : A = 0 := hAB hB0
    rw [if_neg h1]
    by_cases h2 : B + t2 > 0
    · have ht2 : 0 < t2 := by linarith
      have hval : (A + s * t2) / (B + t2) = s := by
        rw [hA0, hB0]
        field_simp
      rw [if_pos h2, hval]
      exact ⟨fun h => h, fun h => h⟩
    · rw [if_neg h2]
      exact ⟨fun _ => le_refl _, fun _ => le_refl _⟩

/-- C5: holding all other sources fixed (with nonnegative weights and
confidences), raising one source's confidence moves the final numeric score
only toward that source's mapped label score: if the label score is at least
the current final score, the final score cannot decrease, and if it is at
most the current final score, the final score cannot increase. -/
theorem C5_confidence_monotonicity
    (front back : List MA.SignalSource) (sig : MA.Signal) (w c1 c2 : ℚ)
    (hw : 0 ≤ w) (hc1 : 0 ≤ c1) (hc12 : c1 ≤ c2)
    (hnn : ∀ s ∈ front ++ back, 0 ≤ s.weight ∧ 0 ≤ s.confidence) :
    (MA.finalScore (front ++ { signal := sig, weight := w, confidence := c1 } :: back) ≤
        MA.signalScore sig →
      MA.finalScore (front ++ { signal := sig, weight := w, confidence := c1 } :: back) ≤
        MA.finalScore (front ++ { signal := sig, weight := w, confidence := c2 } :: back)) ∧
    (MA.signalScore sig ≤
        MA.finalScore (front ++ { signal := sig, weight := w, confidence := c1 } :: back) →
      MA.finalScore (front ++ { signal := sig, weight := w, confidence := c2 } :: back) ≤
        MA.finalScore (front ++ { signal := sig, weight := w, confidence := c1 } :: back)) := by
  have hA : 0 ≤ MA.weightedScore (front ++ back) :=
    MA.weightedScore_nonneg _ hnn
  have hB : 0 ≤ MA.totalWeight (front ++ back) :=
    MA.totalWeight_nonneg _ hnn
  have hAB : MA.totalWeight (front ++ back) = 0 →
      MA.weightedScore (front ++ back) = 0 := by
    intro h0
    have := MA.weightedScore_le_100_totalWeight (front ++ back) hnn
    rw [h0] at this
    linarith
  have ht1 : 0 ≤ w * (c1 / 100) :=
    mul_nonneg hw (div_nonneg hc1 (by norm_num))
  have ht12 : w * (c1 / 100) ≤ w * (c2 / 100) := by
    nlinarith [mul_nonneg hw (sub_nonneg.mpr hc12)]
  have hws1 : MA.weightedScore
      (front ++ { signal := sig, weight := w, confidence := c1 } :: back) =
      MA.weightedScore (front ++ back) + MA.signalScore sig * (w * (c1 / 100)) := by
    rw [MA.weightedScore_append, MA.weightedScore_cons, MA.weightedScore_append]
    simp only [MA.adjustedWeight]
    ring
  have hws2 : MA.weightedScore
      (front ++ { signal := sig, weight := w, confidence := c2 } :: back) =
      MA.weightedScore (front ++ back) + MA.signalScore sig * (w * (c2 / 100)) := by
    rw [MA.weightedScore_append, MA.weightedScore_cons, MA.weightedScore_append]
    simp only [MA.adjustedWeight]
    ring
  have htw1 : MA.totalWeight
      (front ++ { signal := sig, weight := w, confidence := c1 } :: back) =
      MA.totalWeight (front ++ back) + w * (c1 / 100) := by
    rw [MA.totalWeight_append, MA.totalWeight_cons, MA.totalWeight_append]
    simp only [MA.adjustedWeight]
    ring
  have htw2 : MA.totalWeight
      (front ++ { signal := sig, weight := w, confidence := c2 } :: back) =
      MA.totalWeight (front ++ back) + w * (c2 / 100) := by
    rw [MA.totalWeight_append, MA.totalWeight_cons, MA.totalWeight_append]
    simp only [MA.adjustedWeight]
    ring
  have hfs1 : MA.finalScore
      (front ++ { signal := sig, weight := w, confidence := c1 } :: back) =
      if MA.totalWeight (front ++ back) + w * (c1 / 100) > 0 then
        (MA.weightedScore (front ++ back) + MA.signalScore sig * (w * (c1 / 100))) /
          (MA.totalWeight (front ++ back) + w * (c1 / 100))
      else 50 := by
    unfold MA.finalScore
    rw [hws1, htw1]
  have hfs2 : MA.finalScore
      (front ++ { signal := sig, weight := w, confidence := c2 } :: back) =
      if MA.totalWeight (front ++ back) + w * (c2 / 100) > 0 then
        (MA.weightedScore (front ++ back) + MA.signalScore sig * (w * (c2 / 100))) /
          (MA.totalWeight (front ++ back) + w * (c2 / 100))
      else 50 := by
    unfold MA.finalScore
    rw [hws2, htw2]
  rw [hfs1, hfs2]
  exact mix_monotone (MA.weightedScore (front ++ back))
    (MA.totalWeight (front ++ back)) (MA.signalScore sig)
    (w * (c1 / 100)) (w * (c2 / 100)) hA hB hAB ht1 ht12

/-- C5 witness: next to a NEUTRAL source, raising a STRONG_BUY source's
confidence from 50 to 80 does not lower the final score. -/
theorem C5_confidence_monotonicity_witness :
    MA.finalScore [{ signal := .NEUTRAL, weight := 1, confidence := 50 },
                   { signal := .STRONG_BUY, weight := 1, confidence := 50 }] ≤
    MA.finalScore [{ signal := .NEUTRAL, weight := 1, confidence := 50 },
                   { signal := .STRONG_BUY, weight := 1, confidence := 80 }] := by
  refine (C5_confidence_monotonicity
    [{ signal := .NEUTRAL, weight := 1, confidence := 50 }] [] .STRONG_BUY 1 50 80
    (by norm_num) (by norm_num) (by norm_num)
    (by intro s hs; fin_cases hs <;> constructor <;> norm_num)).1 ?_
  unfold MA.finalScore MA.totalWeight MA.weightedScore MA.adjustedWeight
    MA.signalScore
  norm_num

namespace MA

/-- The four risk tiers used across the analysis files. -/
inductive RiskLevel where
  | LOW
  | MEDIUM
  | HIGH
  | EXTREME
deriving DecidableEq, Repr

/-- `determineShouldTrade` of part_010 (lines 377–388): a chain of early
`return false` vetoes followed by two positive conditions; falling through
every test also returns false. -/
def determineShouldTrade (signal : Signal) (confidence : ℚ)
    (riskLevel : RiskLevel) (impactScore : ℚ) (dataPoints : ℕ) : Bool :=
  if signal = .NEUTRAL then false
  else if confidence < 60 then false
  else if dataPoints < 50 then false
  else if riskLevel = .EXTREME then false
  else if impactScore > 20 then false
  else if isStrongLabel signal = true ∧ confidence > 75 then true
  else if confidence > 70 ∧ riskLevel = .LOW then true
  else false

end MA

namespace RT

/-- `signal.includes('BUY')` on the label strings (`BULLISH` does not contain
the substring `BUY`). -/
def containsBUY : MA.Signal → Bool
  | .STRONG_BUY | .BUY => true
  | _ => false

inductive Action where
  | BUY
  | SELL
  | WAIT
deriving DecidableEq, Repr

inductive Urgency where
  | LOW
  | MEDIUM
  | HIGH
deriving DecidableEq, Repr

/-- The fields of `AITradingSignal` that `generateTradeRecommendation`
reads (`marketConditions.volatility` is flattened into `volatility`). -/
structure AITradingSignal where
  signal : MA.Signal
  confidence : ℚ
  accuracy : ℚ
  entryPrice : ℚ
  stopLoss : ℚ
  takeProfit : ℚ
  volatility : ℚ
deriving Repr

structure TradeRecommendation where
  shouldTrade : Bool
  action : Action
  urgency : Urgency
  riskLevel : MA.RiskLevel
  maxLoss : ℚ
  expectedGain : ℚ
deriving Repr

/-- `generateTradeRecommendation` (realTimeAIAnalysis.ts lines 538–578). -/
def generateTradeRecommendation (s : AITradingSignal) : TradeRecommendation :=
  let shouldTrade : Bool :=
    if s.signal ≠ MA.Signal.NEUTRAL ∧ s.confidence > 65 ∧ s.accuracy > 70
    then true else false
  let action : Action :=
    if shouldTrade then (if containsBUY s.signal then .BUY else .SELL) else .WAIT
  let urgency : Urgency :=
    if shouldTrade then
      (if MA.isStrongLabel s.signal = true ∧ s.confidence > 80 then .HIGH
       else if s.confidence > 70 then .MEDIUM
       else .LOW)
    else .LOW
  let riskLevel : MA.RiskLevel :=
    if shouldTrade then
      (if s.volatility < 2 ∧ s.confidence > 75 then .LOW
       else if s.volatility > 4 ∨ s.confidence < 65 then .HIGH
       else .MEDIUM)
    else .EXTREME
  { shouldTrade := shouldTrade
    action := action
    urgency := urgency
    riskLevel := riskLevel
    maxLoss := |s.entryPrice - s.stopLoss| / s.entryPrice * 100
    expectedGain := |s.takeProfit - s.entryPrice| / s.entryPrice * 100 }

/-- `calculatePositionSize` (realTimeAIAnalysis.ts lines 471–484): a fraction
of the account derived from a 2% base, adjusted for volatility and
confidence and clamped to [0.005, 0.05]. -/
def calculatePositionSize (volatility confidence : ℚ) : ℚ :=
  let b1 : ℚ := 2 / 100
  let b2 := if volatility > 3 then b1 * (1 / 2)
    else if volatility < 1 then b1 * (3 / 2) else b1
  let b3 := if confidence > 80 then b2 * (6 / 5)
    else if confidence < 60 then b2 * (7 / 10) else b2
  min (5 / 100) (max (5 / 1000) b3)

end RT

namespace TI

/-- RSI of technicalIndicators.ts (lines 29–51): with fewer than `period + 1`
closes the function silently returns 50 (instead of raising an error); the
identical body also appears in cryptoTechnicalAnalysis.ts (lines 44–66).
The loop over `i = length - period .. length - 1` accumulates the last
`period` consecutive deltas. -/
def calculateRSI (data : List ℚ) (period : ℕ) : ℚ :=
  if data.length < period + 1 then 50
  else
    let changes := List.zipWith (fun prev cur => cur - prev) data data.tail
    let relevant := changes.drop (changes.length - period)
    let gains := (relevant.map (fun c => if c > 0 then c else 0)).sum
    let losses := (relevant.map (fun c => if c > 0 then 0 else |c|)).sum
    let avgGain := gains / period
    let avgLoss := losses / period
    if avgLoss = 0 then 100
    else 100 - 100 / (1 + avgGain / avgLoss)

end TI

namespace CTA

/-- SMA of cryptoTechnicalAnalysis.ts (lines 25–29): with fewer than `period`
closes it silently returns the last price `data[data.length - 1]` (modelled
as `getLast?` with a default for the empty list, which the callers never
pass) instead of raising; otherwise the mean of the last `period` closes,
divided by the slice length as in the source. -/
def calculateSMA (data : List ℚ) (period : ℕ) : ℚ :=
  if data.length < period then (data.getLast?).getD 0
  else
    let slice := data.drop (data.length - period)
    slice.sum / slice.length

end CTA

namespace SRM

structure PositionSizing where
  recommendedSize : ℚ
  maxSize : ℚ
  riskAmount : ℚ
  stopLoss : ℚ
  takeProfits : List ℚ
  trailingStop : ℚ
deriving Repr

/-- `calculateDynamicPositionSize` (smartRiskManagement.ts lines 66–97).
In JS `1 / 0` is `Infinity`, which `Math.max(0.5, Math.min(1.5, ·))` clamps
to 1.5; the `volatility = 0` case is therefore written out explicitly so the
embedding agrees with the JS value there. -/
def calculateDynamicPositionSize (accountBalance riskPerTrade stopLossDistance
    volatility correlation : ℚ) : PositionSizing :=
  let baseRiskAmount := accountBalance * (riskPerTrade / 100)
  let volatilityAdjustment :=
    if volatility = 0 then 3 / 2
    else max (1 / 2) (min (3 / 2) (1 / volatility))
  let correlationAdjustment := max (7 / 10) (1 - correlation * (3 / 10))
  let adjustedRiskAmount := baseRiskAmount * volatilityAdjustment * correlationAdjustment
  let recommendedSize := adjustedRiskAmount / stopLossDistance
  let maxSize := accountBalance * (5 / 100) / stopLossDistance
  let finalSize := min recommendedSize maxSize
  { recommendedSize := finalSize
    maxSize := maxSize
    riskAmount := adjustedRiskAmount
    stopLoss := stopLossDistance
    takeProfits := [stopLossDistance * (3 / 2), stopLossDistance * 2,
      stopLossDistance * 3]
    trailingStop := stopLossDistance * (7 / 10) }

end SRM

namespace RT

/-- A single candle as delivered by the price source (`CryptoPriceData`). -/
structure PriceBar where
  openPrice : ℚ
  high : ℚ
  low : ℚ
  close : ℚ
  volume : ℚ
deriving Repr

/-- The RSI value computed inside realTimeAIAnalysis.ts (lines 134–150):
all consecutive deltas, then the mean of the last `period` gains and losses
(`slice(-period)` keeps the whole list when it is shorter than `period`,
matching `List.drop` with truncated subtraction). -/
def rtRsiValue (closes : List ℚ) (period : ℕ) : ℚ :=
  let changes := List.zipWith (fun prev cur => cur - prev) closes closes.tail
  let gains := changes.map (fun c => if c > 0 then c else 0)
  let losses := changes.map (fun c => if c < 0 then |c| else 0)
  let avgGain := (gains.drop (gains.length - period)).sum / period
  let avgLoss := (losses.drop (losses.length - period)).sum / period
  let rs := if avgLoss = 0 then (100 : ℚ) else avgGain / avgLoss
  100 - 100 / (1 + rs)

/-- The deterministic payload fields of the produced signal that the claims
use: the current price (last close) and the RSI computed from the closes.
The remaining fields (MACD, Bollinger, volume, trend, the caught Gemini
call) do not influence whether the guard throws. -/
structure RTSignalCore where
  currentPrice : ℚ
  rsiValue : ℚ
deriving Repr

/-- The guarded entry point `generateRealTimeAISignal` (realTimeAIAnalysis.ts
lines 44–53): fewer than 20 bars throws `'Cần ít nhất 20 nến để phân tích
chính xác'` before any indicator is computed; with at least 20 bars the
function runs the analysis pipeline and returns a signal object (the Gemini
network call is wrapped in try/catch with a deterministic fallback, so it
never throws). -/
def generateRealTimeAISignal (priceData : List PriceBar) : Except String RTSignalCore :=
  if priceData.length < 20 then
    Except.error "Cần ít nhất 20 nến để phân tích chính xác"
  else
    Except.ok
      { currentPrice := ((priceData.getLast?).map (·.close)).getD 0
        rsiValue := rtRsiValue (priceData.map (·.close)) 14 }

end RT

/-- C3 counterexample: on a window shorter than the indicator minimum the
code does not raise any `InsufficientDataError` — `calculateRSI` silently
returns the NEUTRAL-band value 50 and `calculateSMA` silently returns the
last price, exactly what the claim says never happens. -/
theorem C3_silent_neutral_counterexample :
    TI.calculateRSI [(108 : ℚ) / 100, 109 / 100] 14 = 50 ∧
    CTA.calculateSMA [(1 : ℚ), 2, 3] 20 = 3 := by
  constructor
  · unfold TI.calculateRSI
    norm_num
  · unfold CTA.calculateSMA
    norm_num

/-- C3 (amended): for every window shorter than the indicator minimum the
computation does NOT fail fast — `calculateRSI` returns 50 whenever there
are fewer than `period + 1` closes, and `calculateSMA` returns the last
price whenever there are fewer than `period` closes; no
`InsufficientDataError` exists in the indicator layer. -/
theorem C3_amended_silent_fallbacks :
    (∀ (data : List ℚ) (period : ℕ), data.length < period + 1 →
      TI.calculateRSI data period = 50) ∧
    (∀ (data : List ℚ) (period : ℕ) (hne : data ≠ []),
      data.length < period → CTA.calculateSMA data period = data.getLast hne) := by
  constructor
  · intro data period h
    unfold TI.calculateRSI
    rw [if_pos h]
  · intro data period hne h
    unfold CTA.calculateSMA
    rw [if_pos h, List.getLast?_eq_getLast data hne, Option.getD_some]

/-- C3 witness: the fallbacks instantiated at short concrete windows. -/
theorem C3_amended_silent_fallbacks_witness :
    TI.calculateRSI [(1 : ℚ), 2] 14 = 50 ∧
    CTA.calculateSMA [(5 : ℚ), 6, 7] 20 = ([(5 : ℚ), 6, 7].getLast (by simp)) :=
  ⟨C3_amended_silent_fallbacks.1 [(1 : ℚ), 2] 14 (by norm_num),
   C3_amended_silent_fallbacks.2 [(5 : ℚ), 6, 7] 20 (by simp) (by norm_num)⟩

/-- C4 counterexample: at signal BUY, confidence 95, risk MEDIUM, no calendar
impact and plenty of data, every gating rule listed by the claim passes
(label ≠ NEUTRAL, confidence ≥ 60, risk ≠ EXTREME, no blackout), yet
`determineShouldTrade` returns false — passing all the claimed rules is not
sufficient for `should_trade = true`. -/
theorem C4_gates_not_sufficient_counterexample :
    (MA.Signal.BUY ≠ .NEUTRAL) ∧ ((60 : ℚ) ≤ 95) ∧
    (MA.RiskLevel.MEDIUM ≠ .EXTREME) ∧ ¬((0 : ℚ) > 20) ∧
    MA.determineShouldTrade .BUY 95 .MEDIUM 0 100 = false := by
  refine ⟨by decide, by norm_num, by decide, by norm_num, ?_⟩
  unfold MA.determineShouldTrade MA.isStrongLabel
  norm_num
  decide

/-- C4 (amended): `determineShouldTrade` applies its vetoes in order — label
NEUTRAL, confidence < 60, dataPoints < 50, risk EXTREME, calendar impact
> 20 — and on passing all of them still requires a STRONG label with
confidence > 75, or confidence > 70 together with LOW risk (so risk EXTREME
always vetoes, even STRONG_BUY at confidence 95); direction and urgency are
produced by `generateTradeRecommendation`, whose own gate is label ≠
NEUTRAL ∧ confidence > 65 ∧ accuracy > 70, with action BUY when the label
contains "BUY" and SELL otherwise, and urgency HIGH for a STRONG label with
confidence > 80, MEDIUM for confidence > 70, else LOW. -/
theorem C4_amended_trade_gating :
    (∀ (signal : MA.Signal) (confidence : ℚ) (risk : MA.RiskLevel)
        (impactScore : ℚ) (dataPoints : ℕ),
      MA.determineShouldTrade signal confidence risk impactScore dataPoints = true ↔
        (signal ≠ .NEUTRAL ∧ 60 ≤ confidence ∧ 50 ≤ dataPoints ∧
          risk ≠ .EXTREME ∧ impactScore ≤ 20 ∧
          ((MA.isStrongLabel signal = true ∧ 75 < confidence) ∨
            (70 < confidence ∧ risk = .LOW)))) ∧
    (∀ (signal : MA.Signal) (confidence impactScore : ℚ) (dataPoints : ℕ),
      MA.determineShouldTrade signal confidence .EXTREME impactScore dataPoints
        = false) ∧
    (∀ s : RT.AITradingSignal,
      ((RT.generateTradeRecommendation s).shouldTrade = true ↔
        (s.signal ≠ .NEUTRAL ∧ 65 < s.confidence ∧ 70 < s.accuracy)) ∧
      ((RT.generateTradeRecommendation s).shouldTrade = true →
        (RT.generateTradeRecommendation s).action =
          (if RT.containsBUY s.signal then .BUY else .SELL) ∧
        (RT.generateTradeRecommendation s).urgency =
          (if MA.isStrongLabel s.signal = true ∧ 80 < s.confidence then .HIGH
            else if 70 < s.confidence then .MEDIUM else .LOW))) := by
  refine ⟨?_, ?_, ?_⟩
  · intro signal confidence risk impactScore dataPoints
    unfold MA.determineShouldTrade
    split_ifs with h1 h2 h3 h4 h5 h6 h7
    · simp only [Bool.false_eq_true, false_iff]
      rintro ⟨hne, _, _, _, _, _⟩
      exact hne h1
    · simp only [Bool.false_eq_true, false_iff]
      rintro ⟨_, hconf, _, _, _, _⟩
      linarith
    · simp only [Bool.false_eq_true, false_iff]
      rintro ⟨_, _, hdp, _, _, _⟩
      omega
    · simp only [Bool.false_eq_true, false_iff]
      rintro ⟨_, _, _, hrisk, _, _⟩
      exact hrisk h4
    · simp only [Bool.false_eq_true, false_iff]
      rintro ⟨_, _, _, _, himp, _⟩
      linarith
    · simp only [true_iff]
      exact ⟨h1, by linarith [not_lt.mp h2], by omega, h4, le_of_not_lt h5,
        Or.inl h6⟩
    · simp only [true_iff]
      exact ⟨h1, by linarith [not_lt.mp h2], by omega, h4, le_of_not_lt h5,
        Or.inr h7⟩
    · simp only [Bool.false_eq_true, false_iff]
      rintro ⟨_, _, _, _, _, hpos | hpos⟩
      · exact h6 hpos
      · exact h7 hpos
  · intro signal confidence impactScore dataPoints
    unfold MA.determineShouldTrade
    split_ifs with h1 h2 h3 h4 h5 h6 h7 <;> simp_all
  · intro s
    unfold RT.generateTradeRecommendation
    by_cases hc : s.signal ≠ MA.Signal.NEUTRAL ∧ s.confidence > 65 ∧ s.accuracy > 70
    · simp only [if_pos hc]
      exact ⟨by simpa using hc, fun _ => ⟨rfl, rfl⟩⟩
    · simp only [if_neg hc]
      constructor
      · simpa using hc
      · intro hfalse
        exact absurd hfalse (by simp)

/-- C4 witness: a STRONG_BUY at confidence 80 with MEDIUM risk, no calendar
impact and 100 data points trades; the claim's EXTREME-risk STRONG_BUY at
confidence 95 is vetoed. -/
theorem C4_amended_trade_gating_witness :
    MA.determineShouldTrade .STRONG_BUY 80 .MEDIUM 0 100 = true ∧
    MA.determineShouldTrade .STRONG_BUY 95 .EXTREME 0 100 = false :=
  ⟨(C4_amended_trade_gating.1 .STRONG_BUY 80 .MEDIUM 0 100).mpr
      ⟨by decide, by norm_num, by norm_num, by decide, by norm_num,
        Or.inl ⟨rfl, by norm_num⟩⟩,
    C4_amended_trade_gating.2.1 .STRONG_BUY 95 0 100⟩

/-- C6: the recommended position size is capped at the documented hard
ceiling: `calculatePositionSize` (a fraction of the account) never exceeds
0.05, for any volatility (including 0 and arbitrarily large values) and any
confidence; and `calculateDynamicPositionSize` never recommends a size whose
risk at the stop distance exceeds 5% of the account balance. -/
theorem C6_position_size_hard_ceiling :
    (∀ volatility confidence : ℚ,
      RT.calculatePositionSize volatility confidence ≤ 5 / 100) ∧
    (∀ accountBalance riskPerTrade stopLossDistance volatility correlation : ℚ,
      0 < stopLossDistance →
      (SRM.calculateDynamicPositionSize accountBalance riskPerTrade
          stopLossDistance volatility correlation).recommendedSize *
        stopLossDistance ≤ accountBalance * (5 / 100)) := by
  constructor
  · intro volatility confidence
    unfold RT.calculatePositionSize
    exact min_le_left _ _
  · intro accountBalance riskPerTrade stopLossDistance volatility correlation hsld
    have hrec : (SRM.calculateDynamicPositionSize accountBalance riskPerTrade
        stopLossDistance volatility correlation).recommendedSize ≤
        accountBalance * (5 / 100) / stopLossDistance := by
      unfold SRM.calculateDynamicPositionSize
      exact min_le_right _ _
    calc (SRM.calculateDynamicPositionSize accountBalance riskPerTrade
        stopLossDistance volatility correlation).recommendedSize * stopLossDistance
        ≤ accountBalance * (5 / 100) / stopLossDistance * stopLossDistance :=
          mul_le_mul_of_nonneg_right hrec (le_of_lt hsld)
      _ = accountBalance * (5 / 100) := div_mul_cancel₀ _ (ne_of_gt hsld)

/-- C6 witness: at zero volatility the fraction stays within 0.05 and the
dynamic size at a stop distance of 5 risks at most 5% of a 10000 account. -/
theorem C6_position_size_hard_ceiling_witness :
    RT.calculatePositionSize 0 90 ≤ 5 / 100 ∧
    (SRM.calculateDynamicPositionSize 10000 2 5 0 (3 / 10)).recommendedSize * 5 ≤
      10000 * (5 / 100) :=
  ⟨C6_position_size_hard_ceiling.1 0 90,
    C6_position_size_hard_ceiling.2 10000 2 5 0 (3 / 10) (by norm_num)⟩

/-- C10: the real-time signal generator rejects too-small windows at its
boundary: with fewer than 20 bars it throws (the error branch) before any
indicator is computed, and with at least 20 bars the error branch is
unreachable and a signal object is returned. -/
theorem C10_min_bars_guard (priceData : List RT.PriceBar) :
    (priceData.length < 20 →
      RT.generateRealTimeAISignal priceData =
        Except.error "Cần ít nhất 20 nến để phân tích chính xác") ∧
    (20 ≤ priceData.length →
      ∃ s, RT.generateRealTimeAISignal priceData = Except.ok s) := by
  constructor
  · intro h
    unfold RT.generateRealTimeAISignal
    rw [if_pos h]
  · intro h
    unfold RT.generateRealTimeAISignal
    rw [if_neg (by omega)]
    exact ⟨_, rfl⟩

/-- C10 witness: one bar errors, twenty identical bars produce a signal. -/
theorem C10_min_bars_guard_witness :
    RT.generateRealTimeAISignal
      [{ openPrice := 1, high := 1, low := 1, close := 1, volume := 1 }] =
      Except.error "Cần ít nhất 20 nến để phân tích chính xác" ∧
    ∃ s, RT.generateRealTimeAISignal
      (List.replicate 20
        { openPrice := 1, high := 1, low := 1, close := 1, volume := 1 }) =
      Except.ok s :=
  ⟨(C10_min_bars_guard _).1 (by simp),
    (C10_min_bars_guard _).2 (by simp)⟩
